import Mathlib

/-!
Formal model of the barter-data market-data framework: the WebSocket
subscription validator (src/subscriber/validator.rs), the Bitmex trade
transformer (src/exchange/bitmex/trade.rs) and the Coinbase subscribe-request
builder (src/exchange/coinbase/mod.rs), as a shallow embedding, together with
proofs of behavioural properties of those definitions.
-/

namespace BarterData

/-- Model of the variants of the integration crate's `SocketError` that the
subscription validator constructs or matches on.  `subscribe` models
`SocketError::Subscribe(String)`, `deserialise` models
`SocketError::Deserialise { error, payload }` (only the payload is retained,
the inner serde error is not inspected by the validator), `terminated` models
`SocketError::Terminated(close_frame)`, and `exchangeErr` stands for any other
variant of the error enum, such as an exchange-specific rejection returned by
`SubResponse::validate`. -/
inductive SocketError
  | subscribe (msg : String)
  | deserialise (payload : String)
  | terminated (closeFrame : String)
  | exchangeErr (msg : String)
deriving DecidableEq, Repr

/-- Constructor name of a `SocketError`, used to talk about the KIND of an
error (which enum variant it is) as opposed to its message payload. -/
def SocketError.kind : SocketError → String
  | .subscribe _ => "Subscribe"
  | .deserialise _ => "Deserialise"
  | .terminated _ => "Terminated"
  | .exchangeErr _ => "Exchange"

/-- Combined outcome of `Self::Parser::parse::<Exchange::SubResponse>(response)`
on one received WebSocket message, together with `response.validate()` when the
parse succeeded.  The four-way split mirrors exactly the arms the validator's
`match` distinguishes:
`subResponseOk` is `Some(Ok(response))` with `response.validate()` = `Ok`;
`subResponseErr err` is `Some(Ok(response))` with `response.validate()` = `Err(err)`;
`deserialiseErr payload` is `Some(Err(SocketError::Deserialise { .. }))`;
`terminatedErr closeFrame` is `Some(Err(SocketError::Terminated(_)))`;
`other` covers the wildcard arm (`None` from the parser — pings, pongs,
frames — and every remaining error shape). -/
inductive ParseOutcome
  | subResponseOk
  | subResponseErr (err : SocketError)
  | deserialiseErr (payload : String)
  | terminatedErr (closeFrame : String)
  | other
deriving DecidableEq, Repr

/-- Behaviour of the transport after the listed timed messages are exhausted:
either `websocket.next()` resolves to `None` after `gap` further time units
(the stream closed), or the stream stays open but silent forever (so only the
sleep can resolve). -/
inductive StreamEnd
  | closes (gap : Nat)
  | silent
deriving DecidableEq, Repr

/-- Error built by the validator when the `tokio::time::sleep(timeout)` branch
of the `tokio::select!` wins:
`SocketError::Subscribe(format!("subscription validation timeout reached: {:?}", timeout))`. -/
def timeoutError (timeout : Nat) : SocketError :=
  .subscribe s!"subscription validation timeout reached: {timeout}"

/-- Error built by the validator when `websocket.next()` yields `None`:
`SocketError::Subscribe("WebSocket stream terminated unexpectedly")`. -/
def terminatedUnexpectedlyError : SocketError :=
  .subscribe "WebSocket stream terminated unexpectedly"

/-- Error built by the validator when the parser reports
`SocketError::Terminated(close_frame)`:
`SocketError::Subscribe(format!("received WebSocket CloseFrame: {close_frame}"))`. -/
def closeFrameError (closeFrame : String) : SocketError :=
  .subscribe s!"received WebSocket CloseFrame: {closeFrame}"

/-- Shallow embedding of the `loop` of `WebSocketSubValidator::validate`
(src/subscriber/validator.rs), generic over the `SubscriptionMap` type `Map`
exactly as the source is generic over `SubscriptionMap<Exchange, Kind>`.

Time is explicit: each inbound message carries the gap (time units) between
the start of the iteration that receives it and its arrival; because every
iteration evaluates `tokio::time::sleep(timeout)` afresh inside the
`tokio::select!`, the sleep branch wins an iteration precisely when that
iteration's gap exceeds `timeout`.  A tie (`gap = timeout`) is racy in tokio;
the model resolves it in favour of the message, and every theorem below uses
strict inequalities so that it never relies on the tie.

The returned `Nat` counts how many inbound messages were consumed from
`frames`, making "stops consuming" properties expressible.

The body follows the source line by line: the `success == expected` check at
the top of the loop, then the select between sleep and `websocket.next()`,
then the four-armed match on the parse outcome.  The `deserialiseErr` case
keeps the source's two distinct arms (the guarded
`Some(Err(Deserialise)) if success_responses >= 1` skip, and the wildcard `_`
arm that a `Deserialise` error with zero successes falls through to) even
though both `continue`. -/
def validateLoop {Map : Type} (map : Map) (timeout expectedResponses : Nat)
    (successResponses : Nat) (frames : List (Nat × ParseOutcome))
    (ending : StreamEnd) : Except SocketError Map × Nat :=
  if successResponses == expectedResponses then
    (.ok map, 0)
  else
    match frames with
    | [] =>
      match ending with
      | .closes gap =>
        if timeout < gap then (.error (timeoutError timeout), 0)
        else (.error terminatedUnexpectedlyError, 0)
      | .silent => (.error (timeoutError timeout), 0)
    | (gap, outcome) :: rest =>
      if timeout < gap then
        (.error (timeoutError timeout), 0)
      else
        match outcome with
        | .subResponseOk =>
          let next :=
            validateLoop map timeout expectedResponses (successResponses + 1) rest ending
          (next.1, next.2 + 1)
        | .subResponseErr err => (.error err, 1)
        | .deserialiseErr _ =>
          if 1 ≤ successResponses then
            let next :=
              validateLoop map timeout expectedResponses successResponses rest ending
            (next.1, next.2 + 1)
          else
            let next :=
              validateLoop map timeout expectedResponses successResponses rest ending
            (next.1, next.2 + 1)
        | .terminatedErr closeFrame => (.error (closeFrameError closeFrame), 1)
        | .other =>
          let next :=
            validateLoop map timeout expectedResponses successResponses rest ending
          (next.1, next.2 + 1)

/-- Entry point of `WebSocketSubValidator::validate`: the loop starts with
`success_responses = 0`. -/
def validate {Map : Type} (map : Map) (timeout expectedResponses : Nat)
    (frames : List (Nat × ParseOutcome)) (ending : StreamEnd) :
    Except SocketError Map × Nat :=
  validateLoop map timeout expectedResponses 0 frames ending

/-- Number of messages of a frame list whose parse outcome is a successfully
validating subscription response (the only outcome that increments
`success_responses`). -/
def countOkAcks (frames : List (Nat × ParseOutcome)) : Nat :=
  (frames.filter (fun f => f.2 == ParseOutcome.subResponseOk)).length

/-- Outcomes on which the validator loop neither breaks nor fails (for a
success count below the expected count): a validated subscription response, a
deserialisation error, and the wildcard ping/pong/frame arm. -/
def ParseOutcome.keepsLooping : ParseOutcome → Bool
  | .subResponseOk => true
  | .deserialiseErr _ => true
  | .other => true
  | .subResponseErr _ => false
  | .terminatedErr _ => false

section StepLemmas

variable {Map : Type} (map : Map)

lemma validateLoop_done (timeout e s : Nat) (frames : List (Nat × ParseOutcome))
    (ending : StreamEnd) (h : s = e) :
    validateLoop map timeout e s frames ending = (.ok map, 0) := by
  rw [validateLoop.eq_def]
  simp [h]

lemma validateLoop_nil_silent (timeout e s : Nat) (h : s ≠ e) :
    validateLoop map timeout e s [] .silent = (.error (timeoutError timeout), 0) := by
  rw [validateLoop.eq_def]
  simp [h]

lemma validateLoop_nil_closes (timeout e s gap : Nat) (h : s ≠ e) (hgap : gap ≤ timeout) :
    validateLoop map timeout e s [] (.closes gap)
      = (.error terminatedUnexpectedlyError, 0) := by
  rw [validateLoop.eq_def]
  simp [h, Nat.not_lt.mpr hgap]

lemma validateLoop_timeout_head (timeout e s gap : Nat) (outcome : ParseOutcome)
    (rest : List (Nat × ParseOutcome)) (ending : StreamEnd)
    (h : s ≠ e) (hgap : timeout < gap) :
    validateLoop map timeout e s ((gap, outcome) :: rest) ending
      = (.error (timeoutError timeout), 0) := by
  rw [validateLoop.eq_def]
  simp [h, hgap]

lemma validateLoop_cons_ok (timeout e s gap : Nat)
    (rest : List (Nat × ParseOutcome)) (ending : StreamEnd)
    (h : s ≠ e) (hgap : gap ≤ timeout) :
    validateLoop map timeout e s ((gap, .subResponseOk) :: rest) ending
      = ((validateLoop map timeout e (s + 1) rest ending).1,
         (validateLoop map timeout e (s + 1) rest ending).2 + 1) := by
  rw [validateLoop, if_neg (by simpa using h)]
  simp [Nat.not_lt.mpr hgap]

lemma validateLoop_cons_reject (timeout e s gap : Nat) (err : SocketError)
    (rest : List (Nat × ParseOutcome)) (ending : StreamEnd)
    (h : s ≠ e) (hgap : gap ≤ timeout) :
    validateLoop map timeout e s ((gap, .subResponseErr err) :: rest) ending
      = (.error err, 1) := by
  rw [validateLoop, if_neg (by simpa using h)]
  simp [Nat.not_lt.mpr hgap]

lemma validateLoop_cons_deserialise (timeout e s gap : Nat) (payload : String)
    (rest : List (Nat × ParseOutcome)) (ending : StreamEnd)
    (h : s ≠ e) (hgap : gap ≤ timeout) :
    validateLoop map timeout e s ((gap, .deserialiseErr payload) :: rest) ending
      = ((validateLoop map timeout e s rest ending).1,
         (validateLoop map timeout e s rest ending).2 + 1) := by
  rw [validateLoop, if_neg (by simpa using h)]
  by_cases hs : 1 ≤ s <;> simp [Nat.not_lt.mpr hgap, hs]

lemma validateLoop_cons_terminated (timeout e s gap : Nat) (closeFrame : String)
    (rest : List (Nat × ParseOutcome)) (ending : StreamEnd)
    (h : s ≠ e) (hgap : gap ≤ timeout) :
    validateLoop map timeout e s ((gap, .terminatedErr closeFrame) :: rest) ending
      = (.error (closeFrameError closeFrame), 1) := by
  rw [validateLoop, if_neg (by simpa using h)]
  simp [Nat.not_lt.mpr hgap]

lemma validateLoop_cons_other (timeout e s gap : Nat)
    (rest : List (Nat × ParseOutcome)) (ending : StreamEnd)
    (h : s ≠ e) (hgap : gap ≤ timeout) :
    validateLoop map timeout e s ((gap, .other) :: rest) ending
      = ((validateLoop map timeout e s rest ending).1,
         (validateLoop map timeout e s rest ending).2 + 1) := by
  rw [validateLoop, if_neg (by simpa using h)]
  simp [Nat.not_lt.mpr hgap]

end StepLemmas

/-- Consuming a run of frames that all keep the loop going: if the acks inside
`pre` cannot bring the success count up to the expected count, the loop
consumes all of `pre` and proceeds to the tail with the success count advanced
by the acks of `pre`. -/
lemma validateLoop_consume_pre {Map : Type} (map : Map) (timeout e : Nat)
    (pre : List (Nat × ParseOutcome)) :
    ∀ (s : Nat) (tail : List (Nat × ParseOutcome)) (ending : StreamEnd),
      (∀ f ∈ pre, f.2.keepsLooping = true ∧ f.1 < timeout) →
      s + countOkAcks pre < e →
      validateLoop map timeout e s (pre ++ tail) ending
        = ((validateLoop map timeout e (s + countOkAcks pre) tail ending).1,
           (validateLoop map timeout e (s + countOkAcks pre) tail ending).2 + pre.length) := by
  induction pre with
  | nil =>
    intro s tail ending _ _
    simp [countOkAcks]
  | cons head rest ih =>
    intro s tail ending hpre hcount
    obtain ⟨gap, outcome⟩ := head
    have hhead := hpre ⟨gap, outcome⟩ (List.mem_cons_self _ _)
    have hrest : ∀ f ∈ rest, f.2.keepsLooping = true ∧ f.1 < timeout :=
      fun f hf => hpre f (List.mem_cons_of_mem _ hf)
    have hgap : gap ≤ timeout := Nat.le_of_lt hhead.2
    cases outcome with
    | subResponseOk =>
      have hcnt : countOkAcks ((gap, .subResponseOk) :: rest) = countOkAcks rest + 1 := by
        simp [countOkAcks]
      rw [hcnt] at hcount
      have hne : s ≠ e := by omega
      rw [List.cons_append, validateLoop_cons_ok map timeout e s gap (rest ++ tail) ending hne hgap]
      rw [ih (s + 1) tail ending hrest (by omega)]
      rw [hcnt, show s + (countOkAcks rest + 1) = s + 1 + countOkAcks rest from by omega]
      simp [Nat.add_assoc]
    | subResponseErr err => simp [ParseOutcome.keepsLooping] at hhead
    | deserialiseErr payload =>
      have hcnt : countOkAcks ((gap, .deserialiseErr payload) :: rest) = countOkAcks rest := by
        simp [countOkAcks]
      rw [hcnt] at hcount
      have hne : s ≠ e := by omega
      rw [List.cons_append,
        validateLoop_cons_deserialise map timeout e s gap payload (rest ++ tail) ending hne hgap]
      rw [ih s tail ending hrest (by omega)]
      simp [hcnt]
      omega
    | terminatedErr closeFrame => simp [ParseOutcome.keepsLooping] at hhead
    | other =>
      have hcnt : countOkAcks ((gap, .other) :: rest) = countOkAcks rest := by
        simp [countOkAcks]
      rw [hcnt] at hcount
      have hne : s ≠ e := by omega
      rw [List.cons_append, validateLoop_cons_other map timeout e s gap (rest ++ tail) ending hne hgap]
      rw [ih s tail ending hrest (by omega)]
      simp [hcnt]
      omega

/-- Consuming a run of exactly `acks.length` valid acknowledgement frames when
`expected = s + acks.length`: the loop accepts each, then short-circuits to
`Validated` having consumed nothing beyond the acks. -/
lemma validateLoop_all_acks {Map : Type} (map : Map) (timeout : Nat)
    (acks : List (Nat × ParseOutcome)) :
    ∀ (s : Nat) (rest : List (Nat × ParseOutcome)) (ending : StreamEnd),
      (∀ f ∈ acks, f.2 = ParseOutcome.subResponseOk ∧ f.1 < timeout) →
      validateLoop map timeout (s + acks.length) s (acks ++ rest) ending
        = (.ok map, acks.length) := by
  induction acks with
  | nil =>
    intro s rest ending _
    simpa using validateLoop_done map timeout s s rest ending rfl
  | cons head tail ih =>
    intro s rest ending hacks
    obtain ⟨gap, outcome⟩ := head
    have hhead := hacks ⟨gap, outcome⟩ (List.mem_cons_self _ _)
    have htail : ∀ f ∈ tail, f.2 = ParseOutcome.subResponseOk ∧ f.1 < timeout :=
      fun f hf => hacks f (List.mem_cons_of_mem _ hf)
    have hgap : gap ≤ timeout := Nat.le_of_lt hhead.2
    rcases hhead.1
    have hne : s ≠ s + tail.length + 1 := by omega
    rw [List.cons_append, List.length_cons,
      validateLoop_cons_ok map timeout (s + (tail.length + 1)) s gap (tail ++ rest) ending
        (by omega) hgap]
    have := ih (s + 1) rest ending htail
    rw [show s + 1 + tail.length = s + (tail.length + 1) by omega] at this
    rw [this]

/-- Auxiliary fact used for the error-taxonomy analysis: the message of the
stream-termination failure differs from the timeout failure's message for
every timeout value (their lengths already differ). -/
lemma terminatedUnexpectedlyError_ne_timeoutError (timeout : Nat) :
    terminatedUnexpectedlyError ≠ timeoutError timeout := by
  intro h
  simp only [terminatedUnexpectedlyError, timeoutError] at h
  have hmsg : "WebSocket stream terminated unexpectedly"
      = s!"subscription validation timeout reached: {timeout}" := by
    injection h
  have hlen := congrArg String.length hmsg
  rw [show s!"subscription validation timeout reached: {timeout}"
      = "subscription validation timeout reached: " ++ toString timeout ++ "" from rfl] at hlen
  rw [String.length_append, String.length_append] at hlen
  rw [show ("WebSocket stream terminated unexpectedly").length = 40 from by decide] at hlen
  rw [show ("subscription validation timeout reached: ").length = 41 from by decide] at hlen
  omega

/-- C9: when `Exchange::expected_responses` returns 0 for the map, `validate`
returns `Validated` with the very same map immediately: no frame is consumed
(the consumed count is 0) and the result does not depend on the timeout, on
the frame stream, or on how the stream ends — the loop breaks before its
first `select`. -/
theorem validate_expected_responses_zero {Map : Type} (map : Map) (timeout : Nat)
    (frames : List (Nat × ParseOutcome)) (ending : StreamEnd) :
    validate map timeout 0 frames ending = (.ok map, 0) :=
  validateLoop_done map timeout 0 0 frames ending rfl

/-- C2: feeding exactly N valid acknowledgement frames (each arriving within
the timeout), followed by arbitrary further frames, yields `Validated`
carrying the same map that was passed in, and the loop consumes exactly N
frames — it short-circuits before reading anything beyond the N-th
acknowledgement. -/
theorem validate_n_valid_acks_validates {Map : Type} (map : Map) (timeout : Nat)
    (acks rest : List (Nat × ParseOutcome)) (ending : StreamEnd)
    (hacks : ∀ f ∈ acks, f.2 = ParseOutcome.subResponseOk ∧ f.1 < timeout) :
    validate map timeout acks.length (acks ++ rest) ending = (.ok map, acks.length) := by
  have := validateLoop_all_acks map timeout acks 0 rest ending hacks
  simpa [validate] using this

/-- Witness for C2 at a concrete input: two valid acknowledgements followed by
two further frames validate a concrete map consuming exactly two frames. -/
theorem validate_n_valid_acks_validates_witness :
    validate [("trade.XBTUSD", "xbt_usd")] 10 2
      [(1, .subResponseOk), (2, .subResponseOk), (0, .other), (100, .other)] .silent
      = (.ok [("trade.XBTUSD", "xbt_usd")], 2) :=
  validate_n_valid_acks_validates [("trade.XBTUSD", "xbt_usd")] 10
    [(1, .subResponseOk), (2, .subResponseOk)] [(0, .other), (100, .other)] .silent
    (by decide)

/-- C3: a frame whose parse fails with a deserialisation error, received while
`success_responses >= 1` (and the handshake is still incomplete), is skipped:
the loop result equals the result of running on the remaining frames with the
same success count, with only the consumed-frame count incremented — the frame
neither changes `success_responses`, nor terminates the loop, nor produces a
failure. -/
theorem validate_skips_deserialise_after_success {Map : Type} (map : Map)
    (timeout expectedResponses successResponses gap : Nat) (payload : String)
    (rest : List (Nat × ParseOutcome)) (ending : StreamEnd)
    (hs : 1 ≤ successResponses) (hlt : successResponses < expectedResponses)
    (hgap : gap < timeout) :
    validateLoop map timeout expectedResponses successResponses
        ((gap, .deserialiseErr payload) :: rest) ending
      = ((validateLoop map timeout expectedResponses successResponses rest ending).1,
         (validateLoop map timeout expectedResponses successResponses rest ending).2 + 1) :=
  validateLoop_cons_deserialise map timeout expectedResponses successResponses gap payload
    rest ending (by omega) (Nat.le_of_lt hgap)

/-- Witness for C3 at a concrete input: after one success, an early data
payload that fails to deserialise is skipped. -/
theorem validate_skips_deserialise_after_success_witness :
    validateLoop ["m"] 10 2 1
        [(0, .deserialiseErr "early trade payload"), (3, .subResponseOk)] .silent
      = ((validateLoop ["m"] 10 2 1 [(3, .subResponseOk)] .silent).1,
         (validateLoop ["m"] 10 2 1 [(3, .subResponseOk)] .silent).2 + 1) :=
  validate_skips_deserialise_after_success ["m"] 10 2 1 0 "early trade payload"
    [(3, .subResponseOk)] .silent (by decide) (by decide) (by decide)

/-- C4: before any success (`success_responses = 0`), a close-frame-shaped
parse failure (`SocketError::Terminated`) is promoted to a
closed-during-handshake failure, while a deserialisation error and any other
parse failure (pings, pongs, control frames) are silently skipped and the loop
continues. -/
theorem validate_parse_failures_before_first_success {Map : Type} (map : Map)
    (timeout expectedResponses gap : Nat) (payload closeFrame : String)
    (rest : List (Nat × ParseOutcome)) (ending : StreamEnd)
    (hexp : 0 < expectedResponses) (hgap : gap < timeout) :
    validate map timeout expectedResponses ((gap, .terminatedErr closeFrame) :: rest) ending
      = (.error (closeFrameError closeFrame), 1)
    ∧ validate map timeout expectedResponses ((gap, .deserialiseErr payload) :: rest) ending
      = ((validate map timeout expectedResponses rest ending).1,
         (validate map timeout expectedResponses rest ending).2 + 1)
    ∧ validate map timeout expectedResponses ((gap, .other) :: rest) ending
      = ((validate map timeout expectedResponses rest ending).1,
         (validate map timeout expectedResponses rest ending).2 + 1) := by
  have hne : 0 ≠ expectedResponses := by omega
  have hle : gap ≤ timeout := Nat.le_of_lt hgap
  exact ⟨validateLoop_cons_terminated map timeout expectedResponses 0 gap closeFrame
      rest ending hne hle,
    validateLoop_cons_deserialise map timeout expectedResponses 0 gap payload
      rest ending hne hle,
    validateLoop_cons_other map timeout expectedResponses 0 gap rest ending hne hle⟩

/-- Witness for C4 at a concrete input. -/
theorem validate_parse_failures_before_first_success_witness :
    validate ["m"] 10 1 [(0, .terminatedErr "1006 abnormal"), (0, .subResponseOk)] .silent
      = (.error (closeFrameError "1006 abnormal"), 1)
    ∧ validate ["m"] 10 1 [(0, .deserialiseErr "ping"), (0, .subResponseOk)] .silent
      = ((validate ["m"] 10 1 [(0, .subResponseOk)] .silent).1,
         (validate ["m"] 10 1 [(0, .subResponseOk)] .silent).2 + 1)
    ∧ validate ["m"] 10 1 [(0, .other), (0, .subResponseOk)] .silent
      = ((validate ["m"] 10 1 [(0, .subResponseOk)] .silent).1,
         (validate ["m"] 10 1 [(0, .subResponseOk)] .silent).2 + 1) :=
  validate_parse_failures_before_first_success ["m"] 10 1 0 "ping" "1006 abnormal"
    [(0, .subResponseOk)] .silent (by decide) (by decide)

/-- C5 counterexample: a frame sequence containing one rejected
acknowledgement does NOT always yield the validation failure — if the
rejection arrives after the expected number of successes has been reached,
the loop has already short-circuited to `Validated` and never consumes it.
Here `expected_responses = 1`: one valid acknowledgement followed by a
rejected one yields `Validated` with exactly one frame consumed. -/
theorem rejected_ack_after_completion_counterexample :
    @validate (List String) ["m"] 10 1
      [(1, .subResponseOk), (1, .subResponseErr (.exchangeErr "subscription rejected"))]
      .silent
      = (.ok ["m"], 1) := rfl

/-- C5 (amended): a rejected acknowledgement aborts the whole handshake with
the rejection error, consuming no frame after it, PROVIDED it is consumed
before the handshake completes: every earlier frame keeps the loop going
(valid acknowledgement, deserialisation error, or ping/pong noise — no close
frame), the earlier valid acknowledgements number fewer than
`expected_responses`, and every frame up to the rejection arrives within the
timeout. -/
theorem rejected_ack_aborts_handshake {Map : Type} (map : Map)
    (timeout expectedResponses : Nat) (pre rest : List (Nat × ParseOutcome))
    (gap : Nat) (err : SocketError) (ending : StreamEnd)
    (hpre : ∀ f ∈ pre, f.2.keepsLooping = true ∧ f.1 < timeout)
    (hcount : countOkAcks pre < expectedResponses)
    (hgap : gap < timeout) :
    validate map timeout expectedResponses (pre ++ (gap, .subResponseErr err) :: rest) ending
      = (.error err, pre.length + 1) := by
  rw [validate, validateLoop_consume_pre map timeout expectedResponses pre 0
    ((gap, .subResponseErr err) :: rest) ending hpre (by omega)]
  rw [validateLoop_cons_reject map timeout expectedResponses (0 + countOkAcks pre) gap err
    rest ending (by omega) (Nat.le_of_lt hgap)]
  simp [Nat.add_comm]

/-- Witness for C5 (amended) at a concrete input: noise, one success, then a
rejection with `expected_responses = 3` aborts with the rejection error after
three consumed frames. -/
theorem rejected_ack_aborts_handshake_witness :
    validate ["m"] 10 3
      [(0, .other), (1, .subResponseOk),
       (0, .subResponseErr (.exchangeErr "subscription rejected")), (0, .subResponseOk)]
      .silent
      = (.error (.exchangeErr "subscription rejected"), 3) :=
  rejected_ack_aborts_handshake ["m"] 10 3 [(0, .other), (1, .subResponseOk)]
    [(0, .subResponseOk)] 0 (.exchangeErr "subscription rejected") .silent
    (by decide) (by decide) (by decide)

/-- C1 counterexample: the handshake timeout is NOT a bound on the total
handshake duration.  With `timeout = 10` and two acknowledgements each
arriving 6 time units after the previous suspension point, the total elapsed
handshake time is 12 > 10, yet `validate` returns `Validated` — because the
`tokio::time::sleep(timeout)` future is re-created by the `select!` on every
loop iteration, so only each individual wait is bounded. -/
theorem timeout_not_total_handshake_counterexample :
    10 < 6 + 6
    ∧ @validate (List String) ["m"] 10 2
        [(6, .subResponseOk), (6, .subResponseOk)] .silent
        = (.ok ["m"], 2) :=
  ⟨by decide, rfl⟩

/-- C1 (amended): the timeout future is re-armed at every loop iteration, so
it bounds each individual wait for the next frame rather than the entire
handshake.  For at least one expected response: with zero frames ever
received, `validate` yields the timeout failure, never `Validated`; whenever
the next frame's arrival gap exceeds the timeout, the iteration fails with
the timeout error on the spot; and a run of exactly `expected_responses`
valid acknowledgements each arriving within the timeout is validated no
matter how large the total elapsed time is. -/
theorem timeout_bounds_each_wait {Map : Type} (map : Map)
    (timeout expectedResponses : Nat) (hexp : 1 ≤ expectedResponses) :
    (validate map timeout expectedResponses [] .silent
        = (.error (timeoutError timeout), 0))
    ∧ (∀ gap outcome rest ending, timeout < gap →
        validate map timeout expectedResponses ((gap, outcome) :: rest) ending
          = (.error (timeoutError timeout), 0))
    ∧ (∀ acks rest ending,
        (∀ f ∈ acks, f.2 = ParseOutcome.subResponseOk ∧ f.1 < timeout) →
        acks.length = expectedResponses →
        validate map timeout expectedResponses (acks ++ rest) ending
          = (.ok map, expectedResponses)) := by
  refine ⟨?_, ?_, ?_⟩
  · exact validateLoop_nil_silent map timeout expectedResponses 0 (by omega)
  · intro gap outcome rest ending hgap
    exact validateLoop_timeout_head map timeout expectedResponses 0 gap outcome rest ending
      (by omega) hgap
  · intro acks rest ending hacks hlen
    have := validateLoop_all_acks map timeout acks 0 rest ending hacks
    rw [validate, ← hlen]
    simpa using this

/-- Witness for C1 (amended) at concrete inputs: zero frames time out; a frame
arriving after the timeout times out; two in-time acknowledgements with total
elapsed time 12 > 10 are validated. -/
theorem timeout_bounds_each_wait_witness :
    @validate (List String) ["m"] 10 2 [] .silent = (.error (timeoutError 10), 0)
    ∧ @validate (List String) ["m"] 10 2 [(11, .other)] .silent
        = (.error (timeoutError 10), 0)
    ∧ @validate (List String) ["m"] 10 2 [(6, .subResponseOk), (6, .subResponseOk)] .silent
        = (.ok ["m"], 2) := by
  have h := timeout_bounds_each_wait ["m"] 10 2 (by decide)
  exact ⟨h.1, h.2.1 11 .other [] .silent (by decide),
    h.2.2 [(6, .subResponseOk), (6, .subResponseOk)] [] .silent (by decide) (by decide)⟩

/-- C6 counterexample: the stream-termination failure and the timeout failure
are NOT distinct error kinds — both are built with the `SocketError::Subscribe`
variant, so a caller inspecting only the error's kind cannot distinguish
"gave up waiting" from "connection died"; only the message texts differ. -/
theorem terminated_and_timeout_same_kind_counterexample :
    (@validate (List String) ["m"] 100 1 [] .silent).1
        = .error (timeoutError 100)
    ∧ (@validate (List String) ["m"] 100 1 [] (.closes 0)).1
        = .error terminatedUnexpectedlyError
    ∧ SocketError.kind terminatedUnexpectedlyError = SocketError.kind (timeoutError 100) :=
  ⟨rfl, rfl, rfl⟩

/-- C6 (amended): if the transport yields no frame before the handshake
completes, `validate` fails with the fixed message
"WebSocket stream terminated unexpectedly"; that failure differs from the
timeout failure in its message for every timeout value, but both are the SAME
`SocketError::Subscribe` kind, so callers can distinguish the two cases only
by message text, not by the error's kind. -/
theorem transport_terminated_failure_distinct_message {Map : Type} (map : Map)
    (timeout expectedResponses gap : Nat)
    (hexp : 0 < expectedResponses) (hgap : gap < timeout) :
    validate map timeout expectedResponses [] (.closes gap)
      = (.error terminatedUnexpectedlyError, 0)
    ∧ terminatedUnexpectedlyError ≠ timeoutError timeout
    ∧ SocketError.kind terminatedUnexpectedlyError = SocketError.kind (timeoutError timeout) :=
  ⟨validateLoop_nil_closes map timeout expectedResponses 0 gap
      (by omega) (Nat.le_of_lt hgap),
    terminatedUnexpectedlyError_ne_timeoutError timeout, rfl⟩

/-- Witness for C6 (amended) at a concrete input. -/
theorem transport_terminated_failure_distinct_message_witness :
    @validate (List String) ["m"] 100 1 [] (.closes 3)
      = (.error terminatedUnexpectedlyError, 0)
    ∧ terminatedUnexpectedlyError ≠ timeoutError 100
    ∧ SocketError.kind terminatedUnexpectedlyError = SocketError.kind (timeoutError 100) :=
  transport_terminated_failure_distinct_message ["m"] 100 1 3 (by decide) (by decide)

/-! JSON value model for the serde-deserialised wire payloads.  Numbers are
modelled as rationals: the repository performs no arithmetic on them, it only
carries the parsed `f64` values through to the canonical event. -/

/-- JSON value, as produced by serde_json. -/
inductive Json
  | null
  | bool (b : Bool)
  | num (q : Rat)
  | str (s : String)
  | arr (elems : List Json)
  | obj (fields : List (String × Json))

/-- Field lookup in a JSON object, first occurrence wins (serde resolves
struct fields by name, independent of order). -/
def lookupField (fields : List (String × Json)) (key : String) : Option Json :=
  match fields with
  | [] => none
  | (k, v) :: rest => if k == key then some v else lookupField rest key

/-- Required struct field: serde errors when a required field is missing. -/
def getField (fields : List (String × Json)) (key : String) : Except String Json :=
  match lookupField fields key with
  | some v => .ok v
  | none => .error s!"missing field {key}"

/-- Deserialising a `&str` / `String`: errors on any non-string JSON value. -/
def getStr : Json → Except String String
  | .str s => .ok s
  | _ => .error "invalid type: expected a string"

/-- Deserialising an `f64` / `i64`: errors on any non-number JSON value. -/
def getNum : Json → Except String Rat
  | .num q => .ok q
  | _ => .error "invalid type: expected a number"

/-- Model of the integration crate's `Side` enum. -/
inductive Side
  | buy
  | sell
deriving DecidableEq, Repr

/-- Deserialising a `Side`, as evidenced by the repository's tests, where the
wire value "Sell" deserialises to `Side::Sell`. -/
def parseSide : Json → Except String Side
  | .str "Buy" => .ok .buy
  | .str "buy" => .ok .buy
  | .str "Sell" => .ok .sell
  | .str "sell" => .ok .sell
  | _ => .error "unknown variant, expected Side"

/-- Gregorian leap-year rule. -/
def isLeapYear (y : Nat) : Bool :=
  y % 4 == 0 && (y % 100 != 0 || y % 400 == 0)

/-- Length of a month in the Gregorian calendar. -/
def daysInMonth (y m : Nat) : Nat :=
  if m == 2 then (if isLeapYear y then 29 else 28)
  else if m == 4 || m == 6 || m == 9 || m == 11 then 30
  else 31

/-- Days from 1970-01-01 to year-month-day (for years from 1970 on). -/
def daysSinceEpoch (y m d : Nat) : Nat :=
  let yearDays := (List.range (y - 1970)).foldl
    (fun acc i => acc + (if isLeapYear (1970 + i) then 366 else 365)) 0
  let monthDays := (List.range (m - 1)).foldl
    (fun acc i => acc + daysInMonth y (i + 1)) 0
  yearDays + monthDays + (d - 1)

/-- Reads exactly `n` decimal digits, accumulating their value. -/
def readDigitsAux : Nat → Nat → List Char → Option (Nat × List Char)
  | 0, acc, cs => some (acc, cs)
  | _ + 1, _, [] => none
  | n + 1, acc, c :: cs =>
    if c.isDigit then readDigitsAux n (acc * 10 + (c.toNat - 48)) cs else none

/-- Consumes one expected character. -/
def expectChar (c : Char) : List Char → Option (List Char)
  | [] => none
  | x :: xs => if x = c then some xs else none

/-- Model of `chrono::DateTime::parse_from_rfc3339` restricted to the
Z-offset subset the repository exercises
(`YYYY-MM-DDTHH:MM:SS[.fraction]Z`, years from 1970 on); the result is the
UTC timestamp in milliseconds since the Unix epoch. -/
def parseRfc3339Z (s : String) : Option Nat := do
  let cs := s.data
  let (y, cs) ← readDigitsAux 4 0 cs
  let cs ← expectChar '-' cs
  let (mo, cs) ← readDigitsAux 2 0 cs
  let cs ← expectChar '-' cs
  let (d, cs) ← readDigitsAux 2 0 cs
  let cs ← expectChar 'T' cs
  let (h, cs) ← readDigitsAux 2 0 cs
  let cs ← expectChar ':' cs
  let (mi, cs) ← readDigitsAux 2 0 cs
  let cs ← expectChar ':' cs
  let (sec, cs) ← readDigitsAux 2 0 cs
  let (ms, cs) ←
    match cs with
    | '.' :: cs2 =>
      let frac := cs2.takeWhile (fun c => c.isDigit)
      let restCs := cs2.dropWhile (fun c => c.isDigit)
      if frac.length == 0 || 9 < frac.length then none
      else
        let nanos := (frac ++ List.replicate (9 - frac.length) '0').foldl
          (fun acc c => acc * 10 + (c.toNat - 48)) 0
        some (nanos / 1000000, restCs)
    | _ => some (0, cs)
  let cs ← expectChar 'Z' cs
  if cs.isEmpty && 1970 ≤ y && 1 ≤ mo && mo ≤ 12 && 1 ≤ d && d ≤ daysInMonth y mo
      && h < 24 && mi < 60 && sec < 60 then
    some (((daysSinceEpoch y mo d) * 86400 + h * 3600 + mi * 60 + sec) * 1000 + ms)
  else
    none

/-- Model of `de_str_datetime_as_datetime_utc` (src/exchange/bitmex/trade.rs):
the input must deserialise as a string, but the function then parses the
HARD-CODED constant "2023-02-18T09:27:59.701Z" instead of the input; since
that constant always parses, the error branch (which is the only place the
input is used) is unreachable. -/
def de_str_datetime_as_datetime_utc (input : String) : Except String Nat :=
  match parseRfc3339Z "2023-02-18T09:27:59.701Z" with
  | some t => .ok t
  | none =>
    .error s!"invalid value: string {input}, expected invalid message type expected pattern: <type>.<symbol>"

/-- Model of the `BitmexTrade` struct.  The `#[serde(skip)]` fields are not
read from the input and receive `Default::default()`. -/
structure BitmexTrade where
  timestamp : Nat
  symbol : String
  side : Side
  amount : Rat
  price : Rat
  id : String
  tick_direction : String
  gross_value : Int
  home_notional : Rat
  foreign_notional : Int
  trd_type : String
deriving DecidableEq, Repr

/-- Deserialisation of one `BitmexTrade` record from a JSON value, following
the struct's serde attributes: `timestamp` deserialises as a string and then
goes through `de_str_datetime_as_datetime_utc`; `size` renames to `amount`;
`trdMatchID` renames to `id`; the skipped fields default. -/
def parseTrade (j : Json) : Except String BitmexTrade :=
  match j with
  | .obj fields => do
    let tsJson ← getField fields "timestamp"
    let tsStr ← getStr tsJson
    let timestamp ← de_str_datetime_as_datetime_utc tsStr
    let symbol ← getStr (← getField fields "symbol")
    let side ← parseSide (← getField fields "side")
    let amount ← getNum (← getField fields "size")
    let price ← getNum (← getField fields "price")
    let id ← getStr (← getField fields "trdMatchID")
    .ok { timestamp, symbol, side, amount, price, id,
          tick_direction := "", gross_value := 0, home_notional := 0,
          foreign_notional := 0, trd_type := "" }
  | _ => .error "invalid type: expected a map"

/-- Model of `BitmexMessage<T>`, reconstructed from its use in
src/exchange/bitmex/trade.rs (struct literals with fields `table`, `action`,
`data` in the repository's tests; the source file of the struct itself is not
among the provided sources). -/
structure BitmexMessage (T : Type) where
  table : String
  action : String
  data : List T
deriving DecidableEq, Repr

/-- Alias for `BitmexMessage<BitmexTrade>` as in the source. -/
abbrev BitmexTradePayload := BitmexMessage BitmexTrade

/-- Serde's deserialisation of `Vec<BitmexTrade>`: elements in order, and the
FIRST failing element fails the whole vector — there is no per-element error
recovery. -/
def parseTradeList (elems : List Json) : Except String (List BitmexTrade) :=
  match elems with
  | [] => .ok []
  | e :: rest => do
    let t ← parseTrade e
    let ts ← parseTradeList rest
    .ok (t :: ts)

/-- Deserialisation of a whole `BitmexTradePayload` frame. -/
def parsePayload (j : Json) : Except String BitmexTradePayload :=
  match j with
  | .obj fields => do
    let table ← getStr (← getField fields "table")
    let action ← getStr (← getField fields "action")
    let dataJson ← getField fields "data"
    match dataJson with
    | .arr elems => do
      let data ← parseTradeList elems
      .ok { table, action, data }
    | _ => .error "invalid type: expected a sequence"
  | _ => .error "invalid type: expected a map"

/-- Model of the canonical `PublicTrade` event kind. -/
structure PublicTrade where
  id : String
  price : Rat
  amount : Rat
  side : Side
deriving DecidableEq, Repr

/-- Model of `MarketEvent<Kind>`; `Exchange` and `Instrument` are opaque
identifiers, modelled as strings. -/
structure MarketEvent (Kind : Type) where
  exchange_time : Nat
  received_time : Nat
  exchange : String
  instrument : String
  kind : Kind
deriving DecidableEq, Repr

/-- Body of the closure in
`impl From<(ExchangeId, Instrument, BitmexTradePayload)> for MarketIter<PublicTrade>`:
the canonical event built from one deserialised trade record.  The
nondeterministic `Utc::now()` receive stamp is passed explicitly as `now`. -/
def bitmexEventOf (exchange_id instrument : String) (now : Nat)
    (trade : BitmexTrade) : MarketEvent PublicTrade :=
  { exchange_time := trade.timestamp
    received_time := now
    exchange := exchange_id
    instrument := instrument
    kind := { id := trade.id, price := trade.price, amount := trade.amount,
              side := trade.side } }

/-- Model of the `From` impl itself: the payload's records are mapped, each
wrapped in `Ok` — the transformation has no error-producing path. -/
def bitmexTradesToMarketIter (exchange_id instrument : String) (now : Nat)
    (trades : BitmexTradePayload) : List (Except String (MarketEvent PublicTrade)) :=
  trades.data.map (fun trade => .ok (bitmexEventOf exchange_id instrument now trade))

/-- Full per-frame pipeline for a Bitmex trade frame: serde deserialisation of
the payload followed by the `From` impl.  A deserialisation failure is a
single frame-level error; only a fully deserialised payload reaches the
per-record output list. -/
def bitmexTransformFrame (exchange_id instrument : String) (now : Nat) (j : Json) :
    Except String (List (Except String (MarketEvent PublicTrade))) :=
  (parsePayload j).map (fun payload => bitmexTradesToMarketIter exchange_id instrument now payload)

/-- Concrete well-formed trade record (the documented raw payload example). -/
def bitmexGoodTradeJson : Json :=
  .obj [("timestamp", .str "2023-02-18T09:27:59.701Z"),
        ("symbol", .str "XBTUSD"),
        ("side", .str "Sell"),
        ("size", .num 200),
        ("price", .num (24564.5 : Rat)),
        ("tickDirection", .str "MinusTick"),
        ("trdMatchID", .str "31e50cb7-e005-a44e-f354-86e88dff52eb"),
        ("grossValue", .num 814184),
        ("homeNotional", .num (0.00814184 : Rat)),
        ("foreignNotional", .num 200),
        ("trdType", .str "Regular")]

/-- Concrete malformed trade record: its `timestamp` is a JSON number, so the
`&str` deserialisation inside the timestamp field fails. -/
def bitmexMalformedTradeJson : Json :=
  .obj [("timestamp", .num 1676712479701),
        ("symbol", .str "XBTUSD"),
        ("side", .str "Sell"),
        ("size", .num 150),
        ("price", .num 24000),
        ("trdMatchID", .str "deadbeef")]

/-- The record `bitmexGoodTradeJson` deserialises to. -/
def bitmexGoodTrade : BitmexTrade :=
  { timestamp := 1676712479701
    symbol := "XBTUSD"
    side := .sell
    amount := 200
    price := (24564.5 : Rat)
    id := "31e50cb7-e005-a44e-f354-86e88dff52eb"
    tick_direction := ""
    gross_value := 0
    home_notional := 0
    foreign_notional := 0
    trd_type := "" }

/-- Dissection of a successful `Except` bind. -/
lemma except_bind_ok {ε α β : Type} {x : Except ε α} {f : α → Except ε β} {b : β}
    (h : x >>= f = .ok b) : ∃ a, x = .ok a ∧ f a = .ok b := by
  cases x with
  | error e =>
    simp only [Bind.bind, Except.bind] at h
    exact Except.noConfusion h
  | ok a =>
    refine ⟨a, rfl, ?_⟩
    simpa only [Bind.bind, Except.bind] using h

/-- A vector of trade records fails to deserialise as soon as any element
fails: serde's `Vec` deserialisation is all-or-nothing. -/
lemma parseTradeList_isOk_false (elems : List Json)
    (h : ∃ e ∈ elems, (parseTrade e).isOk = false) :
    (parseTradeList elems).isOk = false := by
  induction elems with
  | nil => simp at h
  | cons e rest ih =>
    obtain ⟨x, hx, hfail⟩ := h
    rw [List.mem_cons] at hx
    cases hx with
    | inl hx =>
      subst hx
      rw [parseTradeList]
      cases hp : parseTrade x with
      | error err => simp [Bind.bind, Except.bind, hp, Except.isOk, Except.toBool]
      | ok t => rw [hp] at hfail; simp [Except.isOk, Except.toBool] at hfail
    | inr hx =>
      rw [parseTradeList]
      cases hp : parseTrade e with
      | error err => simp [Bind.bind, Except.bind, hp, Except.isOk, Except.toBool]
      | ok t =>
        have hrest := ih ⟨x, hx, hfail⟩
        cases hq : parseTradeList rest with
        | error err2 => simp [Bind.bind, Except.bind, hp, hq, Except.isOk, Except.toBool]
        | ok ts => rw [hq] at hrest; simp [Except.isOk, Except.toBool] at hrest

/-- Reduction of `parsePayload` on a well-shaped frame object: the result is
exactly the record-vector deserialisation mapped into the payload struct. -/
lemma parsePayload_obj (table action : String) (elems : List Json) :
    parsePayload (Json.obj
        [("table", .str table), ("action", .str action), ("data", .arr elems)])
      = (parseTradeList elems).map
          (fun data => { table := table, action := action, data := data }) := by
  cases hq : parseTradeList elems with
  | error err =>
    simp [parsePayload, getField, lookupField, getStr, Bind.bind, Except.bind, hq, Except.map]
  | ok ts =>
    simp [parsePayload, getField, lookupField, getStr, Bind.bind, Except.bind, hq, Except.map]

/-- C10: the Bitmex timestamp deserialiser ignores its input.  For every input
that deserialises as a string it returns `Ok` of the one fixed instant
2023-02-18T09:27:59.701Z UTC (epoch milliseconds 1676712479701) — it parses a
hard-coded constant, never the input, so no string input can make it error —
and consequently every successfully deserialised `BitmexTrade` carries that
same constant timestamp, whatever the wire value was. -/
theorem de_str_datetime_ignores_input :
    (∀ input, de_str_datetime_as_datetime_utc input = .ok 1676712479701)
    ∧ (∀ j trade, parseTrade j = .ok trade → trade.timestamp = 1676712479701) := by
  constructor
  · intro input
    rfl
  · intro j trade h
    cases j with
    | obj fields =>
      rw [parseTrade] at h
      obtain ⟨tsJson, h1, h⟩ := except_bind_ok h
      obtain ⟨tsStr, h2, h⟩ := except_bind_ok h
      obtain ⟨tval, h3, h⟩ := except_bind_ok h
      obtain ⟨symJson, h4, h⟩ := except_bind_ok h
      obtain ⟨symbol, h5, h⟩ := except_bind_ok h
      obtain ⟨sideJson, h6, h⟩ := except_bind_ok h
      obtain ⟨side, h7, h⟩ := except_bind_ok h
      obtain ⟨szJson, h8, h⟩ := except_bind_ok h
      obtain ⟨amount, h9, h⟩ := except_bind_ok h
      obtain ⟨prJson, h10, h⟩ := except_bind_ok h
      obtain ⟨price, h11, h⟩ := except_bind_ok h
      obtain ⟨idJson, h12, h⟩ := except_bind_ok h
      obtain ⟨id, h13, h⟩ := except_bind_ok h
      have hconst : de_str_datetime_as_datetime_utc tsStr = Except.ok 1676712479701 := rfl
      rw [hconst] at h3
      injection h3 with h3
      injection h with h
      rw [← h]
      simpa using h3.symm
    | null => simp [parseTrade] at h
    | bool b => simp [parseTrade] at h
    | num q => simp [parseTrade] at h
    | str s => simp [parseTrade] at h
    | arr elems => simp [parseTrade] at h

/-- Witness for C10 at concrete inputs: an input string that is not the
constant still yields the constant instant, and the documented example record
deserialises with that constant timestamp. -/
theorem de_str_datetime_ignores_input_witness :
    de_str_datetime_as_datetime_utc "1999-01-01T00:00:00Z" = .ok 1676712479701
    ∧ bitmexGoodTrade.timestamp = 1676712479701 :=
  ⟨de_str_datetime_ignores_input.1 "1999-01-01T00:00:00Z",
   de_str_datetime_ignores_input.2 bitmexGoodTradeJson bitmexGoodTrade rfl⟩

/-- C7 counterexample: a batch frame holding one well-formed record (k = 1)
and one malformed record does NOT yield one successful event plus one
`NormalizationError` element — the payload's `Vec` deserialisation is atomic,
so the whole frame fails with a single deserialisation error and zero
per-record results; the well-formed sibling IS discarded. -/
theorem bitmex_batch_with_malformed_record_counterexample :
    bitmexTransformFrame "bitmex" "btc_usd_perp" 7
        (.obj [("table", .str "trade"), ("action", .str "insert"),
               ("data", .arr [bitmexGoodTradeJson, bitmexMalformedTradeJson])])
      = .error "invalid type: expected a string" := rfl

/-- C7 (amended): the Bitmex trade transformation never produces a per-record
error element: on a successfully deserialised batch of k records it yields
exactly k successful canonical events, in the records' original order (the
i-th output is the event of the i-th record), deterministically given the
stamped receive time; and a batch containing any malformed record fails to
deserialise as a whole — a single frame-level error, zero events — rather
than yielding its well-formed siblings. -/
theorem bitmex_batch_transform_amended :
    (∀ exchange_id instrument : String, ∀ now : Nat, ∀ payload : BitmexTradePayload,
      (bitmexTradesToMarketIter exchange_id instrument now payload).length
          = payload.data.length
      ∧ (∀ r ∈ bitmexTradesToMarketIter exchange_id instrument now payload, r.isOk = true)
      ∧ (∀ i : Nat, (bitmexTradesToMarketIter exchange_id instrument now payload)[i]?
            = (payload.data[i]?).map
                (fun trade => Except.ok (bitmexEventOf exchange_id instrument now trade))))
    ∧ (∀ table action : String, ∀ elems : List Json,
        (∃ e ∈ elems, (parseTrade e).isOk = false) →
        (parsePayload (Json.obj
            [("table", .str table), ("action", .str action),
             ("data", .arr elems)])).isOk = false) := by
  constructor
  · intro exchange_id instrument now payload
    refine ⟨by simp [bitmexTradesToMarketIter], ?_, ?_⟩
    · intro r hr
      simp only [bitmexTradesToMarketIter, List.mem_map] at hr
      obtain ⟨t, _, rfl⟩ := hr
      rfl
    · intro i
      simp [bitmexTradesToMarketIter, List.getElem?_map]
  · intro table action elems h
    have hlist := parseTradeList_isOk_false elems h
    rw [parsePayload_obj]
    cases hq : parseTradeList elems with
    | error err => rfl
    | ok ts => rw [hq] at hlist; simp [Except.isOk, Except.toBool] at hlist

/-- Witness for C7 (amended) at concrete inputs: a one-record deserialised
batch yields one event, and the two-record batch with one malformed record
fails to deserialise. -/
theorem bitmex_batch_transform_amended_witness :
    (bitmexTradesToMarketIter "bitmex" "btc_usd_perp" 7
        { table := "trade", action := "insert", data := [bitmexGoodTrade] }).length = 1
    ∧ (parsePayload (Json.obj
        [("table", .str "trade"), ("action", .str "insert"),
         ("data", .arr [bitmexGoodTradeJson, bitmexMalformedTradeJson])])).isOk = false :=
  ⟨(bitmex_batch_transform_amended.1 "bitmex" "btc_usd_perp" 7
      { table := "trade", action := "insert", data := [bitmexGoodTrade] }).1,
   bitmex_batch_transform_amended.2 "trade" "insert"
     [bitmexGoodTradeJson, bitmexMalformedTradeJson]
     ⟨bitmexMalformedTradeJson, List.mem_cons_of_mem _ (List.mem_cons_self _ _), rfl⟩⟩

/-- Model of `CoinbaseChannel` (src/exchange/coinbase/channel.rs): a newtype
over a static string. -/
structure CoinbaseChannel where
  val : String
deriving DecidableEq, Repr

/-- The Coinbase real-time trades channel constant. -/
def CoinbaseChannel.TRADES : CoinbaseChannel := ⟨"matches"⟩

/-- Modelled from the spec: the repository's `CoinbaseMarket` type
(src/exchange/coinbase/market.rs is not among the provided sources).  Per the
spec, `Market` is an opaque exchange-specific token: a newtype wrapper over a
string, with a stable textual representation (`as_ref`) used to build wire
requests. -/
structure CoinbaseMarket where
  val : String
deriving DecidableEq, Repr

/-- Model of `ExchangeSub<Channel, Market>`: the `(channel, market)` identity
of one requested feed. -/
structure ExchangeSub (Channel Market : Type) where
  channel : Channel
  market : Market
deriving DecidableEq, Repr

/-- Model of `WsMessage::Text`: the JSON body built by `json!` is kept as a
structured JSON value; its serialisation to the wire string is abstracted. -/
inductive WsMessage
  | text (body : Json)

/-- Body of the closure in `Coinbase::requests`
(src/exchange/coinbase/mod.rs): the single wire message built for one
`ExchangeSub` — a "subscribe" body whose `product_ids` array holds exactly the
market token and whose `channels` array holds exactly the channel token. -/
def coinbaseRequestFor (sub : ExchangeSub CoinbaseChannel CoinbaseMarket) : WsMessage :=
  WsMessage.text (Json.obj
    [("type", .str "subscribe"),
     ("product_ids", .arr [.str sub.market.val]),
     ("channels", .arr [.str sub.channel.val])])

/-- Model of `Coinbase::requests`: one wire message per subscription, in input
order.  It is a pure function of its input: determinism and freedom from side
effects are captured by the embedding itself. -/
def coinbaseRequests (exchange_subs : List (ExchangeSub CoinbaseChannel CoinbaseMarket)) :
    List WsMessage :=
  exchange_subs.map coinbaseRequestFor

/-- Reader-side accessor: the value of a top-level field of a textual JSON
message body. -/
def WsMessage.jsonField (m : WsMessage) (key : String) : Option Json :=
  match m with
  | .text (Json.obj fields) => lookupField fields key
  | .text _ => none

/-- C8: `Coinbase::requests` returns exactly one wire message per logical
subscription, in input order: the i-th output message corresponds to the i-th
input `ExchangeSub`, and every produced message is a JSON body whose `type`
field is "subscribe", whose `product_ids` is the singleton array of that
subscription's market token, and whose `channels` is the singleton array of
its channel token.  Purity and determinism hold by construction: the model is
a total function of the input list alone. -/
theorem coinbase_requests_shape
    (subs : List (ExchangeSub CoinbaseChannel CoinbaseMarket)) :
    (coinbaseRequests subs).length = subs.length
    ∧ (∀ (i : Nat) (sub : ExchangeSub CoinbaseChannel CoinbaseMarket),
        subs[i]? = some sub →
        (coinbaseRequests subs)[i]? = some (coinbaseRequestFor sub))
    ∧ (∀ sub : ExchangeSub CoinbaseChannel CoinbaseMarket,
        (coinbaseRequestFor sub).jsonField "type" = some (.str "subscribe")
        ∧ (coinbaseRequestFor sub).jsonField "product_ids"
            = some (.arr [.str sub.market.val])
        ∧ (coinbaseRequestFor sub).jsonField "channels"
            = some (.arr [.str sub.channel.val])) := by
  refine ⟨by simp [coinbaseRequests], ?_, ?_⟩
  · intro i sub hsub
    simp only [coinbaseRequests]
    rw [List.getElem?_map, hsub]
    rfl
  · intro sub
    exact ⟨rfl, rfl, rfl⟩

/-- Witness for C8 at a concrete input: a single trades subscription for the
market token "BTC-USD". -/
theorem coinbase_requests_shape_witness :
    (coinbaseRequests [⟨CoinbaseChannel.TRADES, ⟨"BTC-USD"⟩⟩])[0]?
      = some (coinbaseRequestFor ⟨CoinbaseChannel.TRADES, ⟨"BTC-USD"⟩⟩)
    ∧ (coinbaseRequestFor ⟨CoinbaseChannel.TRADES, ⟨"BTC-USD"⟩⟩).jsonField "type"
      = some (.str "subscribe")
    ∧ (coinbaseRequestFor ⟨CoinbaseChannel.TRADES, ⟨"BTC-USD"⟩⟩).jsonField "product_ids"
      = some (.arr [.str "BTC-USD"])
    ∧ (coinbaseRequestFor ⟨CoinbaseChannel.TRADES, ⟨"BTC-USD"⟩⟩).jsonField "channels"
      = some (.arr [.str "matches"]) :=
  ⟨(coinbase_requests_shape [⟨CoinbaseChannel.TRADES, ⟨"BTC-USD"⟩⟩]).2.1 0
      ⟨CoinbaseChannel.TRADES, ⟨"BTC-USD"⟩⟩ rfl,
   (coinbase_requests_shape [⟨CoinbaseChannel.TRADES, ⟨"BTC-USD"⟩⟩]).2.2
      ⟨CoinbaseChannel.TRADES, ⟨"BTC-USD"⟩⟩⟩

end BarterData
